import Mathlib

/-!
Verification of the policy-gated, tool-augmented LLM reasoning pipeline of
the K8s management service.  The Python sources under
`src/deployment/llm_client/llm_client.py`,
`src/deployment/llm_client_history/llm_client.py` and
`src/test/llm_client/tools/k8s_tools.py` are shallowly embedded below:
pure Python expressions become Lean functions, external collaborators
(the Azure judge LLM, the LangChain agent executor, `json.loads`, the
subprocess runner, the HTTP backends and the PostgreSQL history store)
become explicit parameters or oracle values, and Python exceptions become
`Except` / `Option` values.
-/

/-! ### Python string primitives

Models of the Python `str` operations used by the sources, defined on the
character list of a `String`.  Only the ASCII behaviour matters here
(the judge token is `DENIED`, the log-level token is `info`). -/

/-- Model of the Python whitespace class used by `str.strip()`. -/
def isPyWhitespace (c : Char) : Bool :=
  c = ' ' || c = '\t' || c = '\n' || c = '\r' || c = '\x0b' || c = '\x0c'

/-- Model of Python `s.strip()`: drop leading and trailing whitespace. -/
def pyStrip (s : String) : String :=
  ⟨((s.data.dropWhile isPyWhitespace).reverse.dropWhile isPyWhitespace).reverse⟩

/-- Model of Python `s.upper()` (ASCII range). -/
def pyUpper (s : String) : String :=
  ⟨s.data.map Char.toUpper⟩

/-- Model of Python `s.lower()` (ASCII range). -/
def pyLower (s : String) : String :=
  ⟨s.data.map Char.toLower⟩

/-- Whether `pat` occurs at the head of `s`. -/
def listLeads : List Char → List Char → Bool
  | [], _ => true
  | _ :: _, [] => false
  | a :: as, b :: bs => a == b && listLeads as bs

/-- Whether `pat` occurs as a contiguous sublist of `s`. -/
def listHasSub (pat : List Char) : List Char → Bool
  | [] => listLeads pat []
  | c :: rest => listLeads pat (c :: rest) || listHasSub pat rest

/-- Model of the Python membership test `pat in s` on strings. -/
def pyIn (pat s : String) : Bool :=
  listHasSub pat.data s.data

/-- Model of Python `s.replace(c, '')` for a single-character pattern:
every occurrence of the character is removed. -/
def pyRemoveChar : List Char → Char → List Char
  | [], _ => []
  | x :: xs, c => if x = c then pyRemoveChar xs c else x :: pyRemoveChar xs c

/-! ### JSON values

The shape of values produced by Python `json.loads`.  The parser itself is
part of the Python standard library (an external collaborator), so the
pipeline definitions below are parameterized by a parse function
`loads : String → Option Json`, where `none` stands for
`json.JSONDecodeError`. -/

/-- A Python value as produced by `json.loads`. -/
inductive Json where
  | null : Json
  | bool (b : Bool) : Json
  | num (n : Int) : Json
  | str (s : String) : Json
  | arr (xs : List Json) : Json
  | obj (kvs : List (String × Json)) : Json

/-- Model of Python `isinstance(result, dict)`. -/
def Json.isObj : Json → Bool
  | .obj _ => true
  | _ => false

/-- Model of Python `d.get(key, default)` on a decoded JSON object. -/
def Json.getField (kvs : List (String × Json)) (key : String) (dflt : Json) : Json :=
  (List.lookup key kvs).getD dflt

/-! ### `_is_json_dict` (src/deployment/llm_client/llm_client.py lines 26-40,
src/deployment/llm_client_history/llm_client.py lines 41-58)

The Python function calls `json.loads(s)` and answers
`isinstance(result, dict)`, catching only `json.JSONDecodeError`.  To state
what is and is not caught we model the argument as a Python value that is
either a string or not, and the possible exceptions explicitly. -/

/-- A Python argument passed to `_is_json_dict`: a string, or any
non-string value. -/
inductive PyVal where
  | pyStr (s : String) : PyVal
  | pyOther : PyVal

/-- Exceptions that `json.loads` can raise on these arguments. -/
inductive PyErr where
  | jsonDecodeError : PyErr
  | typeError : PyErr
deriving DecidableEq

/-- Model of `json.loads` on a Python value: on a string it parses (or
raises `JSONDecodeError`); on a non-string it raises `TypeError`. -/
def json_loads (loads : String → Option Json) : PyVal → Except PyErr Json
  | .pyStr s =>
    match loads s with
    | some j => .ok j
    | none => .error .jsonDecodeError
  | .pyOther => .error .typeError

/-- Embedding of `_is_json_dict`: `try: return isinstance(json.loads(s),
dict) except json.JSONDecodeError: return False`.  Only the decode error
is caught; any other exception propagates. -/
def _is_json_dict (loads : String → Option Json) (v : PyVal) : Except PyErr Bool :=
  match json_loads loads v with
  | .ok r => .ok r.isObj
  | .error .jsonDecodeError => .ok false
  | .error e => .error e

/-- The boolean value of `_is_json_dict` on a string argument (where it
never raises). -/
def is_json_dict_b (loads : String → Option Json) (s : String) : Bool :=
  match loads s with
  | some j => j.isObj
  | none => false

/-! ### Output normalization (src/deployment/llm_client/llm_client.py line 314)

`output = json.loads(output).get("action_input", "no action_input")
           if _is_json_dict(output) else output` -/

/-- Embedding of the output-normalization expression shared by all four
endpoint handlers. -/
def normalize_output (loads : String → Option Json) (output : String) : Json :=
  if is_json_dict_b loads output then
    match loads output with
    | some (.obj kvs) => Json.getField kvs "action_input" (.str "no action_input")
    | _ => .str output
  else
    .str output

/-! ### The `/llm/ask` endpoint (src/deployment/llm_client/llm_client.py
lines 266-323)

External collaborators are passed as oracle values: `judgeResult` is the
outcome of `judge_chain.ainvoke` (`Except.error` = the call raised),
`agentResult` is the outcome of `agent_executor.invoke` (a dict whose
`output` entry is the raw answer string, or `Except.error` = it raised). -/

/-- The fixed policy-violation message returned on a DENIED decision. -/
def policy_violation_msg : String :=
  "This query violates safety policy (e.g., attempts to change state or access sensitive data) and cannot be executed."

/-- The FastAPI response model: `reply` and `is_safe`. -/
structure LLMResponse where
  reply : Json
  is_safe : Bool

/-- Outcome of one endpoint call: a normal response or an HTTPException
with a status code and detail. -/
inductive AskResult where
  | response (r : LLMResponse) : AskResult
  | httpError (code : Nat) (detail : String) : AskResult

/-- Endpoint outcome together with whether the agent executor was
invoked on the way. -/
structure AskOutcome where
  result : AskResult
  agentCalled : Bool

/-- Embedding of `ask_llm` (`POST /llm/ask`): stage 1 normalizes the
judge completion (`strip` then `upper`) and denies iff the literal
`DENIED` occurs in it; a judge-call exception raises HTTP 503; stage 2
invokes the agent executor and normalizes its `output` entry. -/
def ask_llm (loads : String → Option Json) (judgeResult : Except String String)
    (agentResult : Except String (List (String × String))) (message : String) : AskOutcome :=
  match judgeResult with
  | .error e => ⟨.httpError 503 ("Safety check service error: " ++ e), false⟩
  | .ok content =>
    let decision := pyUpper (pyStrip content)
    if pyIn "DENIED" decision then
      ⟨.response ⟨Json.obj [("output", Json.str policy_violation_msg)], false⟩, false⟩
    else
      match agentResult with
      | .error _ => ⟨.httpError 500 "Internal error occurred while processing the request", true⟩
      | .ok reply =>
        let output := (List.lookup "output" reply).getD "no output"
        ⟨.response ⟨Json.obj [("output", normalize_output loads output)], true⟩, true⟩

/-! ### The `/ask` endpoint of the history variant
(src/deployment/llm_client_history/llm_client.py lines 379-448)

In this source file the whole stage-1 safety check (judge chain,
503 branch and DENIED branch, lines 402-425) is commented out: the
handler body starts directly with the agent invocation, so the judge is
not consulted at all and `message` reaches the agent unconditionally.
Conversation memory is managed externally by the wrapped executor, so the
oracle `agentResult` already accounts for any stored history. -/

/-- Embedding of the history variant's `ask_llm` (`POST /ask`): no judge
stage exists in the executed code; the request goes straight to the
memory-wrapped agent executor and `is_safe` is always reported `true`. -/
def ask_llm_history (loads : String → Option Json)
    (agentResult : Except String (List (String × String))) (message : String) : AskOutcome :=
  match agentResult with
  | .error _ => ⟨.httpError 500 "Internal error occurred while processing the request", true⟩
  | .ok reply =>
    let output := (List.lookup "output" reply).getD "no output"
    ⟨.response ⟨Json.obj [("output", normalize_output loads output)], true⟩, true⟩


/-! ### Kubectl tool (src/test/llm_client/tools/k8s_tools.py lines 133-158)

`subprocess.run` is the external collaborator: its outcome is an oracle
value, either a completed process (`returncode`, `stdout`, `stderr`) or a
raised exception (timeout etc.) carried as a message string. -/

/-- Result of `subprocess.run(..., capture_output=True, text=True)`. -/
structure ProcResult where
  returncode : Int
  stdout : String
  stderr : String
deriving DecidableEq

/-- Embedding of `KubectlTool._run`: on exit code 0 it returns a success
dict whose `output` is `result.stdout.replace(' ','')`; on a non-zero
exit code an error dict with `result.stderr`; any raised exception is
converted to an error dict. -/
def KubectlTool._run (res : Except String ProcResult) (command : String) :
    List (String × Json) :=
  match res with
  | .ok result =>
    if result.returncode = 0 then
      [("status", Json.str "success"),
       ("output", Json.str ⟨pyRemoveChar result.stdout.data ' '⟩),
       ("command", Json.str command)]
    else
      [("status", Json.str "error"),
       ("output", Json.str result.stderr),
       ("command", Json.str command)]
  | .error e =>
    [("status", Json.str "error"),
     ("output", Json.str ("執行命令時發生錯誤: " ++ e)),
     ("command", Json.str command)]

/-! ### Loki log-range tool (src/test/llm_client/tools/k8s_tools.py
lines 261-339)

The HTTP request and JSON decoding are external: the oracle is either the
decoded response body (`stream` field, possibly absent, and the `values`
log list, absent modelled as `[]`) or a raised `RequestException` /
other exception carried as a message.  The Python function body has no
return statement on the path `debug == False` and empty `values`, so the
embedding returns an `Option`, with `none` standing for Python's implicit
`None`. -/

/-- One decoded log entry: `timestamp` and `log` text (a missing `log`
key reads as the empty string via `log.get("log",'')`). -/
structure LogEntry where
  timestamp : String
  log : String
deriving DecidableEq

/-- Decoded body of the Loki API response. -/
structure LokiData where
  stream : Option String
  values : List LogEntry

/-- JSON form of a log entry as placed in the result dict. -/
def logToJson (l : LogEntry) : Json :=
  .obj [("timestamp", Json.str l.timestamp), ("log", Json.str l.log)]

/-- Embedding of `LokiLogsQueryTool._run`.  With `debug = true` the raw
`values` are returned; with `debug = false` and a non-empty list, entries
whose lowercased `log` contains `info` are dropped (`lstTmp`), and if none
remain a single placeholder entry is substituted; with `debug = false`
and an empty list no return statement executes, modelled as `none`.
Request failures produce the error dict. -/
def LokiLogsQueryTool._run (resp : Except String LokiData)
    (query start_time end_time : String) (limit : Nat) (debug : Bool) :
    Option (List (String × Json)) :=
  match resp with
  | .error e =>
    some [("status", Json.str "error"),
          ("error", Json.str ("Loki API Request Error: " ++ e)),
          ("query", Json.str query)]
  | .ok logs_data =>
    if debug then
      some [("status", Json.str "success"),
            ("target", Json.str (logs_data.stream.getD "unknown")),
            ("logs", Json.arr (logs_data.values.map logToJson))]
    else
      let logs := logs_data.values
      if logs.isEmpty then
        none
      else
        let lstTmp := logs.filter (fun log => !(pyIn "info" (pyLower log.log)))
        some [("status", Json.str "success"),
              ("target", Json.str (logs_data.stream.getD "unknown")),
              ("logs", Json.arr ((if lstTmp.isEmpty then
                  [⟨end_time, "No critical logs found"⟩] else lstTmp).map logToJson))]

/-! ### Registered tool sets (src/test/llm_client/tools/k8s_tools.py
lines 90, 126, 173, 246, 357 and 407-416)

Each tool class carries a fixed `name`; the module exports the two
registries used to build the agent executors. -/

def CurrentTimeTool.name : String := "current_time"

def KubectlTool.name : String := "kubectl_command"

def LokiLabelsQueryTool.name : String := "loki_labels_query"

def LokiLogsQueryTool.name : String := "loki_logs_query"

def PrometheusCurrentPodsMetricsTool.name : String := "prometheus_pods_metrics"

/-- The analysis registry (k8s_tools.py lines 408-414). -/
def analysis_tools : List String :=
  [CurrentTimeTool.name, KubectlTool.name, LokiLabelsQueryTool.name,
   LokiLogsQueryTool.name, PrometheusCurrentPodsMetricsTool.name]

/-- The debug registry (k8s_tools.py line 416). -/
def debug_tools : List String := [KubectlTool.name]

/-! ### Reasoning loop dispatch

Modelled from the spec: the think/act/observe state machine of section 4.2
and the registry dispatch of section 9 ("a registry mapping tool name to a
capability descriptor ... looked up by name").  The LangChain
`AgentExecutor` that implements the dispatch is an external collaborator
not present under src/; only the tool registries it is constructed with
(`analysis_tools`, `debug_tools`) are source code.  Each THINKING step is
an oracle model output; a tool is invoked only when its name is found in
the registry, otherwise the step is treated as a parse/dispatch error
observation. -/

/-- One model completion inside the loop: a tool selection, a final
answer, or malformed output. -/
inductive ModelOutput where
  | toolCall (tool : String) (args : String) : ModelOutput
  | finalAnswer (text : String) : ModelOutput
  | malformed : ModelOutput
deriving DecidableEq

/-- Observable events of one loop run. -/
inductive StepEvent where
  | invoked (tool : String) : StepEvent
  | answered (text : String) : StepEvent
  | parseRetry : StepEvent
  | loopFailed : StepEvent
deriving DecidableEq

/-- Modelled from the spec: run the loop against an oracle list of model
outputs, dispatching tool selections by name lookup in the registry; an
exhausted oracle is a FAILED run. -/
def runLoop (registry : List String) : List ModelOutput → List StepEvent
  | [] => [.loopFailed]
  | .finalAnswer t :: _ => [.answered t]
  | .malformed :: rest => .parseRetry :: runLoop registry rest
  | .toolCall n _ :: rest =>
    if n ∈ registry then .invoked n :: runLoop registry rest
    else .parseRetry :: runLoop registry rest

/-! ### Conversation-history clearing
(src/deployment/llm_client_history/llm_client.py lines 526-551)

The endpoint obtains the history object for the app's single session and
calls `history.clear()`.  `PostgresChatMessageHistory` is an external
collaborator; its `clear` is modelled from the spec: the persistence
interface's `deleteAll(session_id)` (section 6), which removes every
stored turn of that session and nothing else.  The store is a map from
session id to the ordered message list. -/

/-- Modelled from the spec: `deleteAll(session_id)` of the persistence
collaborator — empty the given session's message list, leave others. -/
def deleteAllRows (store : String → List String) (sid : String) : String → List String :=
  fun s => if s = sid then [] else store s

/-- The success body returned by `DELETE /history`. -/
def clear_success_msg : String := "Conversation history cleared successfully"

/-- Embedding of `clear_conversation_history` (success path): clear the
session's rows and return the success message. -/
def clear_conversation_history (store : String → List String) (sid : String) :
    (String → List String) × String :=
  (deleteAllRows store sid, clear_success_msg)


/-! ### Helper lemmas -/

/-- Removing a character is filtering it out. -/
theorem pyRemoveChar_eq_filter (l : List Char) (c : Char) :
    pyRemoveChar l c = l.filter (fun x => x != c) := by
  induction l with
  | nil => rfl
  | cons x xs ih =>
    simp only [pyRemoveChar, List.filter_cons, ih]
    by_cases h : x = c
    · simp [h]
    · simp [h, bne_iff_ne]

/-- Any tool invoked by a loop run is contained in the registry the loop
was built with. -/
theorem invoked_mem_registry (registry : List String) (outputs : List ModelOutput)
    (t : String) (h : StepEvent.invoked t ∈ runLoop registry outputs) :
    t ∈ registry := by
  induction outputs with
  | nil => simp [runLoop] at h
  | cons o rest ih =>
    cases o with
    | finalAnswer a => simp [runLoop] at h
    | malformed =>
      rw [runLoop] at h
      simp at h
      exact ih h
    | toolCall n args =>
      rw [runLoop] at h
      by_cases hc : n ∈ registry
      · rw [if_pos hc] at h
        rcases List.mem_cons.mp h with h | h
        · injection h with he
          subst he
          exact hc
        · exact ih h
      · rw [if_neg hc] at h
        simp at h
        exact ih h

/-! ### Claim theorems -/

/-- C1: the PolicyGate normalizes the judge completion with strip-then-
uppercase and the /llm/ask request is denied (fixed policy-violation
response, agent not called) exactly when the normalized text contains the
substring DENIED; any other judge output proceeds to the agent. -/
theorem policy_gate_decision_iff (loads : String → Option Json) (content : String)
    (agentResult : Except String (List (String × String))) (message : String) :
    (ask_llm loads (.ok content) agentResult message).agentCalled
        = !(pyIn "DENIED" (pyUpper (pyStrip content)))
    ∧ ((ask_llm loads (.ok content) agentResult message).result
        = .response ⟨Json.obj [("output", Json.str policy_violation_msg)], false⟩
       ↔ pyIn "DENIED" (pyUpper (pyStrip content)) = true) := by
  unfold ask_llm
  cases h : pyIn "DENIED" (pyUpper (pyStrip content)) with
  | true => simp [h]
  | false =>
    cases agentResult with
    | error e => simp [h]
    | ok reply => simp [h]

/-- C2: in the llm_client_history deployment the stage-1 safety check of
POST /ask is commented out, so a request the judge would deny still
reaches the agent executor and the response reports is_safe = true with
the agent's output instead of the fixed policy-violation message. -/
theorem history_ask_bypasses_gate :
    (ask_llm_history (fun _ => none) (.ok [("output", "All pods deleted")])
        "delete all pods").agentCalled = true
    ∧ (ask_llm_history (fun _ => none) (.ok [("output", "All pods deleted")])
        "delete all pods").result
        = .response ⟨Json.obj [("output", Json.str "All pods deleted")], true⟩ := by
  constructor <;> rfl

/-- C3: with debug = false and an empty decoded log list, no return
statement of LokiLogsQueryTool._run executes, so the tool yields Python
None rather than a dictionary with a status key. -/
theorem loki_empty_logs_returns_none :
    LokiLogsQueryTool._run (.ok ⟨some "varlogs", []⟩) "app=x"
      "2025-07-15 13:20:00" "2025-07-15 13:24:00" 1000 false = none := rfl

/-- C4: the output normalizer extracts the action_input field of any
agent output that decodes to a JSON object (falling back to the literal
no-action_input marker when the key is absent) and passes every other
string through unchanged, including strings that decode to non-object
JSON. -/
theorem normalize_extracts_action_input (loads : String → Option Json) (out : String) :
    (∀ kvs, loads out = some (Json.obj kvs) →
        normalize_output loads out
          = (List.lookup "action_input" kvs).getD (Json.str "no action_input"))
    ∧ (loads out = none → normalize_output loads out = Json.str out)
    ∧ (∀ j, loads out = some j → j.isObj = false →
        normalize_output loads out = Json.str out) := by
  refine ⟨?_, ?_, ?_⟩
  · intro kvs h
    simp [normalize_output, is_json_dict_b, h, Json.isObj, Json.getField]
  · intro h
    simp [normalize_output, is_json_dict_b, h]
  · intro j h hj
    simp [normalize_output, is_json_dict_b, h, hj]

/-- C4 witness: a concrete object without the key yields the marker, the
key's value is extracted when present, and non-JSON text passes through. -/
theorem normalize_extracts_action_input_witness :
    (fun _ => some (Json.obj [])) "{}" = some (Json.obj ([] : List (String × Json)))
    ∧ normalize_output (fun _ => some (Json.obj [])) "{}" = Json.str "no action_input"
    ∧ normalize_output (fun _ => some (Json.obj [("action_input", Json.str "3 pods running")]))
        "raw" = Json.str "3 pods running"
    ∧ normalize_output (fun _ => none) "plain text" = Json.str "plain text" :=
  ⟨rfl,
   (normalize_extracts_action_input (fun _ => some (Json.obj [])) "{}").1 [] rfl,
   (normalize_extracts_action_input
      (fun _ => some (Json.obj [("action_input", Json.str "3 pods running")])) "raw").1
      [("action_input", Json.str "3 pods running")] rfl,
   (normalize_extracts_action_input (fun _ => none) "plain text").2.1 rfl⟩

/-- C5: a raised judge call surfaces as HTTP 503 with the agent never
invoked, and an is_safe = false response can only arise from a judge call
that returned normally with a DENIED-containing completion. -/
theorem judge_failure_503_not_denial (loads : String → Option Json)
    (agentResult : Except String (List (String × String))) (message e : String) :
    ask_llm loads (.error e) agentResult message
        = ⟨.httpError 503 ("Safety check service error: " ++ e), false⟩
    ∧ ∀ (jr : Except String String) (resp : LLMResponse),
        (ask_llm loads jr agentResult message).result = .response resp →
        resp.is_safe = false →
        ∃ c, jr = .ok c ∧ pyIn "DENIED" (pyUpper (pyStrip c)) = true
          ∧ (ask_llm loads jr agentResult message).agentCalled = false := by
  constructor
  · rfl
  · intro jr resp h1 h2
    cases jr with
    | error e2 => simp [ask_llm] at h1
    | ok c =>
      cases h : pyIn "DENIED" (pyUpper (pyStrip c)) with
      | true => exact ⟨c, rfl, h, by simp [ask_llm, h]⟩
      | false =>
        cases agentResult with
        | error e3 => simp [ask_llm, h] at h1
        | ok reply =>
          simp [ask_llm, h] at h1
          rw [← h1] at h2
          simp at h2

/-- C5 witness: concrete judge failure gives the 503 outcome, and the
concrete denial response arises from an ok DENIED completion. -/
theorem judge_failure_503_not_denial_witness :
    ask_llm (fun _ => none) (.error "boom") (.ok []) "hi"
        = ⟨.httpError 503 "Safety check service error: boom", false⟩
    ∧ ∃ c, (Except.ok "DENIED" : Except String String) = .ok c
        ∧ pyIn "DENIED" (pyUpper (pyStrip c)) = true
        ∧ (ask_llm (fun _ => none) (.ok "DENIED") (.ok []) "hi").agentCalled = false :=
  ⟨(judge_failure_503_not_denial (fun _ => none) (.ok []) "hi" "boom").1,
   (judge_failure_503_not_denial (fun _ => none) (.ok []) "hi" "boom").2 (.ok "DENIED")
     ⟨Json.obj [("output", Json.str policy_violation_msg)], false⟩ rfl rfl⟩

/-- C6: DELETE /history is idempotent: both of two successive calls
return the success message, the session's stored list is empty after each
call, and the second call (a clear of an already-empty session) succeeds
and changes nothing. -/
theorem clear_history_idempotent (store : String → List String) (sid : String) :
    (clear_conversation_history store sid).2 = clear_success_msg
    ∧ (clear_conversation_history (clear_conversation_history store sid).1 sid).2
        = clear_success_msg
    ∧ (clear_conversation_history store sid).1 sid = []
    ∧ (clear_conversation_history (clear_conversation_history store sid).1 sid).1 sid = []
    ∧ ∀ s, (clear_conversation_history (clear_conversation_history store sid).1 sid).1 s
        = (clear_conversation_history store sid).1 s := by
  refine ⟨rfl, rfl, ?_, ?_, ?_⟩
  · simp [clear_conversation_history, deleteAllRows]
  · simp [clear_conversation_history, deleteAllRows]
  · intro s
    by_cases h : s = sid <;> simp [clear_conversation_history, deleteAllRows, h]

/-- C7: a loop run never invokes a tool outside its registry: the debug
instantiation can only invoke the kubectl command tool, and the analysis
instantiation only the five catalogued tools. -/
theorem loop_invokes_only_registered_tools (outputs : List ModelOutput) (t : String) :
    (StepEvent.invoked t ∈ runLoop debug_tools outputs → t = "kubectl_command")
    ∧ (StepEvent.invoked t ∈ runLoop analysis_tools outputs →
        t = "current_time" ∨ t = "kubectl_command" ∨ t = "loki_labels_query"
          ∨ t = "loki_logs_query" ∨ t = "prometheus_pods_metrics") := by
  constructor
  · intro h
    have hc := invoked_mem_registry debug_tools outputs t h
    simpa [debug_tools, KubectlTool.name] using hc
  · intro h
    have hc := invoked_mem_registry analysis_tools outputs t h
    simpa [analysis_tools, CurrentTimeTool.name, KubectlTool.name, LokiLabelsQueryTool.name,
      LokiLogsQueryTool.name, PrometheusCurrentPodsMetricsTool.name] using hc

/-- C7 witness: concrete runs of each instantiation invoking a registered
tool, with the conclusions instantiated. -/
theorem loop_invokes_only_registered_tools_witness :
    StepEvent.invoked "kubectl_command" ∈ runLoop debug_tools
        [ModelOutput.toolCall "kubectl_command" "kubectl get pods", ModelOutput.finalAnswer "done"]
    ∧ ("kubectl_command" : String) = "kubectl_command"
    ∧ StepEvent.invoked "loki_logs_query" ∈ runLoop analysis_tools
        [ModelOutput.toolCall "loki_logs_query" "app=x", ModelOutput.finalAnswer "done"]
    ∧ (("loki_logs_query" : String) = "current_time" ∨ ("loki_logs_query" : String) = "kubectl_command"
        ∨ ("loki_logs_query" : String) = "loki_labels_query" ∨ ("loki_logs_query" : String) = "loki_logs_query"
        ∨ ("loki_logs_query" : String) = "prometheus_pods_metrics") :=
  ⟨by decide,
   (loop_invokes_only_registered_tools
      [ModelOutput.toolCall "kubectl_command" "kubectl get pods", ModelOutput.finalAnswer "done"]
      "kubectl_command").1 (by decide),
   by decide,
   (loop_invokes_only_registered_tools
      [ModelOutput.toolCall "loki_logs_query" "app=x", ModelOutput.finalAnswer "done"]
      "loki_logs_query").2 (by decide)⟩

/-- C8: on exit code 0 the kubectl tool reports success with stdout
stripped of every space character; on a non-zero exit code it reports
error with the stderr text unchanged. -/
theorem kubectl_output_spaces_removed (result : ProcResult) (command : String) :
    (result.returncode = 0 →
        KubectlTool._run (.ok result) command =
          [("status", Json.str "success"),
           ("output", Json.str ⟨result.stdout.data.filter (fun c => c != ' ')⟩),
           ("command", Json.str command)])
    ∧ (result.returncode ≠ 0 →
        KubectlTool._run (.ok result) command =
          [("status", Json.str "error"),
           ("output", Json.str result.stderr),
           ("command", Json.str command)]) := by
  constructor
  · intro h
    simp [KubectlTool._run, h, pyRemoveChar_eq_filter]
  · intro h
    simp [KubectlTool._run, h]

/-- C8 witness: concrete zero and non-zero exit codes. -/
theorem kubectl_output_spaces_removed_witness :
    (0 : Int) = 0
    ∧ KubectlTool._run (.ok ⟨0, "NAME READY", ""⟩) "kubectl get pods" =
        [("status", Json.str "success"),
         ("output", Json.str ⟨("NAME READY".data.filter (fun c => c != ' '))⟩),
         ("command", Json.str "kubectl get pods")]
    ∧ (⟨("NAME READY".data.filter (fun c => c != ' '))⟩ : String) = "NAMEREADY"
    ∧ (1 : Int) ≠ 0
    ∧ KubectlTool._run (.ok ⟨1, "", "error: forbidden"⟩) "kubectl get pods" =
        [("status", Json.str "error"),
         ("output", Json.str "error: forbidden"),
         ("command", Json.str "kubectl get pods")] :=
  ⟨rfl,
   (kubectl_output_spaces_removed ⟨0, "NAME READY", ""⟩ "kubectl get pods").1 rfl,
   by decide,
   by decide,
   (kubectl_output_spaces_removed ⟨1, "", "error: forbidden"⟩ "kubectl get pods").2 (by decide)⟩

/-- C9: with debug = false and a non-empty log list the Loki tool
succeeds with exactly the entries whose lowercased log text does not
contain info, replaced by the single No-critical-logs placeholder stamped
with the query's end time when the filter removes everything. -/
theorem loki_info_filter (stream : Option String) (values : List LogEntry)
    (query start_time end_time : String) (limit : Nat) (h : values ≠ []) :
    LokiLogsQueryTool._run (.ok ⟨stream, values⟩) query start_time end_time limit false =
      some [("status", Json.str "success"),
            ("target", Json.str (stream.getD "unknown")),
            ("logs", Json.arr
              ((if (values.filter (fun l => !(pyIn "info" (pyLower l.log)))).isEmpty then
                  [⟨end_time, "No critical logs found"⟩]
                else values.filter (fun l => !(pyIn "info" (pyLower l.log)))).map logToJson))]
    ∧ ∀ l, l ∈ values.filter (fun l => !(pyIn "info" (pyLower l.log))) ↔
        l ∈ values ∧ pyIn "info" (pyLower l.log) = false := by
  constructor
  · simp [LokiLogsQueryTool._run, h]
  · intro l
    simp [List.mem_filter]

/-- C9 witness: a two-entry list where the info entry is dropped and the
error entry is kept. -/
theorem loki_info_filter_witness :
    ([⟨"t1", "ERROR: crash"⟩, ⟨"t2", "INFO: fine"⟩] : List LogEntry) ≠ []
    ∧ LokiLogsQueryTool._run
        (.ok ⟨some "varlogs", [⟨"t1", "ERROR: crash"⟩, ⟨"t2", "INFO: fine"⟩]⟩)
        "app=x" "t0" "t9" 1000 false =
      some [("status", Json.str "success"),
            ("target", Json.str "varlogs"),
            ("logs", Json.arr [logToJson ⟨"t1", "ERROR: crash"⟩])] :=
  ⟨by decide,
   (loki_info_filter (some "varlogs") [⟨"t1", "ERROR: crash"⟩, ⟨"t2", "INFO: fine"⟩]
      "app=x" "t0" "t9" 1000 (by decide)).1⟩

/-- C10: _is_json_dict returns a boolean for every string input (true
exactly when the string decodes to a JSON object), and only the decode
error is caught, so a non-string input raises TypeError. -/
theorem is_json_dict_total_on_strings (loads : String → Option Json) (s : String) :
    (∃ b, _is_json_dict loads (.pyStr s) = .ok b)
    ∧ (_is_json_dict loads (.pyStr s) = .ok true ↔ ∃ kvs, loads s = some (Json.obj kvs))
    ∧ _is_json_dict loads PyVal.pyOther = .error PyErr.typeError := by
  refine ⟨?_, ?_, rfl⟩
  · unfold _is_json_dict json_loads
    cases h : loads s with
    | none => exact ⟨false, by simp [h]⟩
    | some j => exact ⟨j.isObj, by simp [h]⟩
  · unfold _is_json_dict json_loads
    cases h : loads s with
    | none => simp [h]
    | some j => cases j <;> simp [h, Json.isObj]
